import Mathlib

/-!
# GoImageUtil: a shallow embedding of `main.go`

The package drives three command line tools (ImageMagick `identify` and
`convert`, and `pngquant`).  Everything outside the package is the *world*:
the file system (`os.Stat`), the processes started through `os/exec`, and the
decoder `json.Unmarshal`.  The package functions `run`, `Info`, `Convert` and
`Init` are translated statement by statement; every started process is
recorded in a list of `Call`s so that statements about which collaborator is
invoked, with which arguments and in which order can be made.

Conventions.
* Go `uint` is a natural number; the one place where the source does
  arithmetic on it (`a * b / c`) is reduced modulo `2 ^ 64` (`uint` on 64-bit
  targets).
* A Go `error` is `Option Error`, `none` being `nil`.
* A run-time panic is the `Outcome.panicked` result.
* The `fmt.Printf` / `fmt.Println` lines behind `showDebug` and `showError`
  only print; they are not part of the embedding.
-/

namespace GoImageUtil

/-! ## Data model -/

/-- Go error values, tagged by the library that creates them. -/
inductive Error where
  /-- Made by `errors.New` inside the package. -/
  | New (text : String)
  /-- Returned by `os.Stat`. -/
  | os (text : String)
  /-- Returned by `(*exec.Cmd).CombinedOutput`: launch failure or `*exec.ExitError`. -/
  | exec (text : String)
  /-- Returned by `json.Unmarshal`. -/
  | json (text : String)
deriving DecidableEq, Repr

/-- Result of a Go call that either returns a value or panics. -/
inductive Outcome (α : Type) where
  | returned (a : α)
  | panicked (msg : String)
deriving DecidableEq, Repr

/-- The package variable `PNG`. -/
def PNG : String := "PNG"

/-- The struct `ImageInfo`. -/
structure ImageInfo where
  IsKnowImage : Bool := false
  Width : Nat := 0
  Height : Nat := 0
  FileSize : Int := 0
  FilePath : String := ""
  Format : String := ""
deriving DecidableEq, Repr

/-- The struct `Option` of the package (named `ConvOption` here, `Option` being taken). -/
structure ConvOption where
  Width : Nat := 0
  Heigth : Nat := 0
  Quality : Nat := 0
  PngQunlityMin : Nat := 0
deriving DecidableEq, Repr

/-- The struct `Config`. -/
structure Config where
  ImageMagickConvertPath : String := ""
  ImageMagickIdentifyPath : String := ""
  PngquantPath : String := ""
  ShowDebug : Bool := false
  ShowError : Bool := false
deriving DecidableEq, Repr

/-- The package level variables `imageMagickConvertPath`, `imageMagickIdentifyPath`,
`pngquantPath`, `showDebug`, `showError`, with their initial values. -/
structure Globals where
  imageMagickConvertPath : String := "convert"
  imageMagickIdentifyPath : String := "identify"
  pngquantPath : String := "pngquant"
  showDebug : Bool := false
  showError : Bool := false
deriving DecidableEq, Repr

/-! ## The world outside the package -/

/-- Which package variable supplied the executable of a `run` call. It labels the call
site and is not seen by the started process. -/
inductive Tool where
  | identify
  | convert
  | pngquant
deriving DecidableEq, Repr

/-- One started process: `run(name, arg...)`, labelled with its call site. -/
structure Call where
  tool : Tool
  name : String
  arg : List String
deriving DecidableEq, Repr

/-- What `os/exec` reports for one process: the bytes and error returned by
`cmd.CombinedOutput()` and the value of `cmd.ProcessState...ExitStatus()`.
The field `wait` is the contract of `(*exec.Cmd).Wait`: its error is nil only when
the command ran and exited with status zero. -/
structure CmdResult where
  output : List Nat
  err : Option String
  exitStatus : Int
  wait : err = none → exitStatus = 0

/-- The environment of the package. `CombinedOutput` may depend on the processes
started before (`hist`), so that the same command line can behave differently over time. -/
structure World where
  /-- Models `os.Stat(file)`: the size of the file, or the error text. -/
  Stat : String → Except String Int
  /-- Models running `exec.Command(name, arg...)` after the calls in `hist`. -/
  CombinedOutput : (hist : List Call) → Call → CmdResult
  /-- Models `json.Unmarshal(output, &info)`: the updated struct and the error text, if any. -/
  Unmarshal : List Nat → ImageInfo → ImageInfo × Option String

/-! ## Library functions used by the package -/

/-- Scan of `path.Ext`: `rev` is the not yet visited part of the path, last byte first,
`acc` the suffix already visited. -/
def path.Ext.scan : List Char → List Char → List Char
  | [], _ => []
  | c :: rev, acc =>
    if c = '/' then []
    else if c = '.' then c :: acc
    else path.Ext.scan rev (c :: acc)

/-- Models `path.Ext`: the suffix beginning at the final dot in the final slash-separated
element of the path, empty if there is no dot. -/
def path.Ext (p : String) : String :=
  String.mk (path.Ext.scan p.data.reverse [])

/-- Models `strings.Replace(s, old, new, -1)` for a one-character `old`. -/
def strings.Replace (s : String) (old : Char) (new : String) : String :=
  String.mk (s.data.flatMap fun c => if c = old then new.data else [c])

/-- Models `strings.ToUpper` on ASCII letters. Go also maps letters outside ASCII; none
of those is mapped to `P`, `N` or `G`, so comparisons with `"PNG"` are not affected. -/
def strings.ToUpper (s : String) : String :=
  String.mk (s.data.map Char.toUpper)

/-- The width of Go `uint` and `int`. -/
def uintBits : Nat := 64

/-- Product of two `uint` values. -/
def uintMul (a b : Nat) : Nat := (a * b) % 2 ^ uintBits

/-- The conversion `int(x)` of a `uint`. -/
def int (x : Nat) : Int :=
  if x % 2 ^ uintBits < 2 ^ (uintBits - 1) then (x % 2 ^ uintBits : Nat)
  else ((x % 2 ^ uintBits : Nat) : Int) - 2 ^ uintBits

/-- Models `strconv.Itoa`. -/
def strconv.Itoa (i : Int) : String := toString i

/-- Models `fmt.Sprintf("%dx%d!", w, h)` for `uint` arguments. -/
def sprintfResize (w h : Nat) : String := toString w ++ "x" ++ toString h ++ "!"

/-- Models `fmt.Sprintf("--quality=%d-%d", lo, hi)` for `uint` arguments. -/
def sprintfQuality (lo hi : Nat) : String := "--quality=" ++ toString lo ++ "-" ++ toString hi

/-! ## The package functions -/

/-- The function `run`: starts `name arg...` after the calls in `tr`; returns exit code,
output and error, and the extended list of calls. -/
def run (w : World) (tr : List Call) (tool : Tool) (name : String) (arg : List String) :
    (Int × List Nat × Option Error) × List Call :=
  let cmd : Call := ⟨tool, name, arg⟩
  let r := w.CombinedOutput tr cmd
  match r.err with
  | some e => ((1, [], some (Error.exec e)), tr ++ [cmd])
  | none => ((r.exitStatus, r.output, none), tr ++ [cmd])

/-- The format string handed to `identify` by `Info`. -/
def identifyFormat : String := "\x7b\"w\":%[width],\"h\":%[height],\"m\":\"%[magick]\"\x7d"

/-- The function `Info`. -/
def Info (g : Globals) (w : World) (tr : List Call) (file : String) :
    (ImageInfo × Option Error) × List Call :=
  let info : ImageInfo := {}
  match w.Stat file with
  | .ok size =>
    match run w tr Tool.identify g.imageMagickIdentifyPath ["-format", identifyFormat, file] with
    | ((exitCode, output, runerr), tr1) =>
      if exitCode = 0 then
        match w.Unmarshal output info with
        | (info1, err) =>
          (({ info1 with FileSize := size, IsKnowImage := true, FilePath := file },
            err.map Error.json), tr1)
      else
        (({ info with IsKnowImage := false }, runerr), tr1)
  | .error e => ((info, some (Error.os e)), tr)

/-- Lines 167-177 of `Convert`: the resolution `(w, h)` to resize to. The two quotients
panic on a zero divisor. -/
def Convert.resolution (info : ImageInfo) (opt : ConvOption) : Outcome (Nat × Nat) :=
  if opt.Width = 0 then
    let h := opt.Heigth
    if info.Height = 0 then .panicked "runtime error: integer divide by zero"
    else .returned (uintMul info.Width h / info.Height, h)
  else if opt.Heigth = 0 then
    let w := opt.Width
    if info.Width = 0 then .panicked "runtime error: integer divide by zero"
    else .returned (w, uintMul info.Height w / info.Width)
  else
    .returned (opt.Width, opt.Heigth)

/-- Lines 166-180 of `Convert`: the resize arguments appended to `args`. -/
def Convert.resize (info : ImageInfo) (opt : ConvOption) (args : List String) :
    Outcome (List String) :=
  if opt.Width > 0 ∨ opt.Heigth > 0 then
    match Convert.resolution info opt with
    | .returned (w, h) => .returned (args ++ ["-resize", sprintfResize w h])
    | .panicked msg => .panicked msg
  else .returned args

/-- Lines 182-184 of `Convert`: the quality arguments appended to `args`. -/
def Convert.quality (opt : ConvOption) (outFormat : String) (args : List String) : List String :=
  if opt.Quality > 0 ∧ outFormat ≠ PNG then
    args ++ ["-quality", strconv.Itoa (int opt.Quality)]
  else args

/-- Lines 186-188 of `Convert`: the two paths appended to `args`. -/
def Convert.paths (tempFile fileOut : String) (args : List String) : List String :=
  if args.length > 0 ∨ path.Ext tempFile ≠ path.Ext fileOut then
    args ++ [tempFile, fileOut]
  else args

/-- Lines 204-219 of `Convert`: the pngquant stage and the final return. -/
def Convert.pngquant (g : Globals) (w : World) (tr : List Call) (opt : ConvOption)
    (outFormat tempFile fileOut : String) : Outcome (Bool × Option Error) × List Call :=
  if opt.Quality > 0 ∧ outFormat = PNG then
    let opt : ConvOption :=
      if opt.PngQunlityMin > opt.Quality then { opt with PngQunlityMin := opt.Quality } else opt
    let args : List String :=
      ["--force", "--quiet", "--ordered", "--speed=1",
        sprintfQuality opt.PngQunlityMin opt.Quality, tempFile, "--output", fileOut]
    match run w tr Tool.pngquant g.pngquantPath args with
    | ((exitCode, _, err), tr1) =>
      if exitCode ≠ 0 then (.returned (false, err), tr1)
      else (.returned (true, none), tr1)
  else (.returned (true, none), tr)

/-- Lines 191-219 of `Convert`: the ImageMagick stage, followed by the pngquant stage. -/
def Convert.imageMagick (g : Globals) (w : World) (tr : List Call) (opt : ConvOption)
    (outFormat tempFile fileOut : String) (args : List String) :
    Outcome (Bool × Option Error) × List Call :=
  if args.length > 0 then
    match run w tr Tool.convert g.imageMagickConvertPath args with
    | ((exitCode, _, err), tr1) =>
      if exitCode ≠ 0 then (.returned (false, err), tr1)
      else Convert.pngquant g w tr1 opt outFormat fileOut fileOut
  else Convert.pngquant g w tr opt outFormat tempFile fileOut

/-- The output format computed on line 157 of `Convert`. -/
def Convert.outFormat (fileOut : String) : String :=
  strings.ToUpper (strings.Replace (path.Ext fileOut) '.' "")

/-- The function `Convert`: the result (or panic) and the processes started, in order. -/
def Convert (g : Globals) (w : World) (fileIn fileOut : String) (opt : ConvOption) :
    Outcome (Bool × Option Error) × List Call :=
  let tempFile := fileIn
  let outFormat := Convert.outFormat fileOut
  match Info g w [] fileIn with
  | ((_, some err), tr) => (.returned (false, some err), tr)
  | ((info, none), tr) =>
    if info.IsKnowImage = false then
      (.returned (false, some (Error.New "UnknowImageFormat")), tr)
    else
      match Convert.resize info opt [] with
      | .panicked msg => (.panicked msg, tr)
      | .returned args =>
        let args := Convert.quality opt outFormat args
        let args := Convert.paths tempFile fileOut args
        Convert.imageMagick g w tr opt outFormat tempFile fileOut args

/-- The path assignments at the start of `Init` (lines 78-86). -/
def Init.paths (g : Globals) (conf : Config) : Globals :=
  let g := if conf.ImageMagickConvertPath ≠ "" then
    { g with imageMagickConvertPath := conf.ImageMagickConvertPath } else g
  let g := if conf.ImageMagickIdentifyPath ≠ "" then
    { g with imageMagickIdentifyPath := conf.ImageMagickIdentifyPath } else g
  if conf.PngquantPath ≠ "" then { g with pngquantPath := conf.PngquantPath } else g

/-- The function `Init`: the returned error, the package variables afterwards and the
processes started, in order. -/
def Init (g : Globals) (w : World) (conf : Config) : Option Error × Globals × List Call :=
  let g := Init.paths g conf
  match run w [] Tool.identify g.imageMagickIdentifyPath ["--version"] with
  | ((exitCode, _, err), tr1) =>
    if exitCode ≠ 0 ∨ err ≠ none then (err, g, tr1)
    else
      match run w tr1 Tool.convert g.imageMagickConvertPath ["--version"] with
      | ((exitCode, _, err), tr2) =>
        if exitCode ≠ 0 ∨ err ≠ none then (err, g, tr2)
        else
          match run w tr2 Tool.pngquant g.pngquantPath ["--version"] with
          | ((exitCode, _, err), tr3) =>
            if exitCode ≠ 0 ∨ err ≠ none then (err, g, tr3)
            else (none, { g with showDebug := conf.ShowDebug, showError := conf.ShowError }, tr3)

/-! ## Concrete worlds used in the examples -/

/-- The result of a process that exits with status zero and prints nothing. -/
def CmdResult.success : CmdResult := ⟨[], none, 0, fun _ => rfl⟩

/-- The result of a process that exits with status one. -/
def CmdResult.exit1 : CmdResult := ⟨[], some "exit status 1", 1, fun h => by cases h⟩

/-- A world in which every file exists, `identify` reports a `width` by `height` image of
the given format, and the tools in `failing` exit with status one. -/
def sampleWorld (width height : Nat) (format : String) (failing : List Tool) : World where
  Stat := fun _ => .ok 4096
  CombinedOutput := fun _ c => if c.tool ∈ failing then CmdResult.exit1 else CmdResult.success
  Unmarshal := fun _ info => ({ info with Width := width, Height := height, Format := format }, none)

/-! ## Vocabulary of the statements -/

/-- The process `c`, started after the calls in `hist`, runs and exits with status zero:
`CombinedOutput` returns no error and the exit status is zero. -/
def exitsZero (w : World) (hist : List Call) (c : Call) : Prop :=
  (w.CombinedOutput hist c).err = none ∧ (w.CombinedOutput hist c).exitStatus = 0

instance (w : World) (hist : List Call) (c : Call) : Decidable (exitsZero w hist c) := by
  unfold exitsZero
  infer_instance

/-- The error `run` returns for the process `c` started after `hist`. -/
def runError (w : World) (hist : List Call) (c : Call) : Option Error :=
  (w.CombinedOutput hist c).err.map Error.exec

/-- The `identify` process started by `Info`. -/
def identifyCall (g : Globals) (file : String) : Call :=
  ⟨Tool.identify, g.imageMagickIdentifyPath, ["-format", identifyFormat, file]⟩

/-- The `pngquant` process started by `Convert` to compress `tempFile` into `fileOut`. -/
def pngquantCall (g : Globals) (opt : ConvOption) (tempFile fileOut : String) : Call :=
  ⟨Tool.pngquant, g.pngquantPath,
    ["--force", "--quiet", "--ordered", "--speed=1",
      sprintfQuality (min opt.PngQunlityMin opt.Quality) opt.Quality, tempFile, "--output", fileOut]⟩

/-- The ImageMagick process of stage one, `resize` being the arguments collected by the
resize step: then the quality pair if any, then the two paths. -/
def stageOneCall (g : Globals) (opt : ConvOption) (fileIn fileOut : String)
    (resize : List String) : Call :=
  ⟨Tool.convert, g.imageMagickConvertPath,
    resize ++
      (if opt.Quality > 0 ∧ Convert.outFormat fileOut ≠ PNG then
        ["-quality", strconv.Itoa (int opt.Quality)] else []) ++
      [fileIn, fileOut]⟩

/-- The three version probes of `Init`. -/
def Init.identifyProbe (g : Globals) (conf : Config) : Call :=
  ⟨Tool.identify, (Init.paths g conf).imageMagickIdentifyPath, ["--version"]⟩

/-- The second probe of `Init`. -/
def Init.convertProbe (g : Globals) (conf : Config) : Call :=
  ⟨Tool.convert, (Init.paths g conf).imageMagickConvertPath, ["--version"]⟩

/-- The third probe of `Init`. -/
def Init.pngquantProbe (g : Globals) (conf : Config) : Call :=
  ⟨Tool.pngquant, (Init.paths g conf).pngquantPath, ["--version"]⟩

/-! ## Basic facts about `run` -/

theorem exitsZero_iff_err (w : World) (hist : List Call) (c : Call) :
    exitsZero w hist c ↔ (w.CombinedOutput hist c).err = none :=
  ⟨fun h => h.1, fun h => ⟨h, (w.CombinedOutput hist c).wait h⟩⟩

/-- The triple returned by `run`, by cases on the process result. -/
theorem run_eq (w : World) (tr : List Call) (t : Tool) (n : String) (a : List String) :
    run w tr t n a =
      if exitsZero w tr ⟨t, n, a⟩ then
        ((0, (w.CombinedOutput tr ⟨t, n, a⟩).output, none), tr ++ [⟨t, n, a⟩])
      else ((1, [], runError w tr ⟨t, n, a⟩), tr ++ [⟨t, n, a⟩]) := by
  rcases hr : w.CombinedOutput tr ⟨t, n, a⟩ with ⟨out, err, st, hw⟩
  cases err with
  | none =>
    have h0 : st = 0 := hw rfl
    simp [run, exitsZero, runError, hr, h0]
  | some e => simp [run, exitsZero, runError, hr]

theorem run_calls (w : World) (tr : List Call) (t : Tool) (n : String) (a : List String) :
    (run w tr t n a).2 = tr ++ [⟨t, n, a⟩] := by
  rw [run_eq]
  split <;> rfl

theorem runError_eq_none (w : World) (hist : List Call) (c : Call) :
    runError w hist c = none ↔ exitsZero w hist c := by
  rw [exitsZero_iff_err]
  unfold runError
  cases (w.CombinedOutput hist c).err <;> simp

theorem runError_ne_none (w : World) (hist : List Call) (c : Call)
    (h : ¬ exitsZero w hist c) : runError w hist c ≠ none :=
  fun hn => h ((runError_eq_none w hist c).1 hn)

/-! ## `Info` by cases -/

theorem Info_eq (g : Globals) (w : World) (tr : List Call) (file : String) :
    Info g w tr file =
      match w.Stat file with
      | .error e => (({}, some (Error.os e)), tr)
      | .ok size =>
        if exitsZero w tr (identifyCall g file) then
          (({ (w.Unmarshal (w.CombinedOutput tr (identifyCall g file)).output {}).1 with
                FileSize := size, IsKnowImage := true, FilePath := file },
            (w.Unmarshal (w.CombinedOutput tr (identifyCall g file)).output {}).2.map Error.json),
            tr ++ [identifyCall g file])
        else (({}, runError w tr (identifyCall g file)), tr ++ [identifyCall g file]) := by
  unfold Info
  cases hs : w.Stat file with
  | error e => rfl
  | ok size =>
    simp only [run_eq, identifyCall]
    split <;> simp

/-- A successful inspection marks the image as known, and started exactly `identify`,
which exited with status zero. -/
theorem Info_ok (g : Globals) (w : World) (tr : List Call) (file : String)
    (h : (Info g w tr file).1.2 = none) :
    (Info g w tr file).1.1.IsKnowImage = true ∧
      (Info g w tr file).2 = tr ++ [identifyCall g file] ∧
      exitsZero w tr (identifyCall g file) := by
  rw [Info_eq] at h ⊢
  cases hs : w.Stat file with
  | error e => simp [hs] at h
  | ok size =>
    simp only [hs] at h ⊢
    by_cases hz : exitsZero w tr (identifyCall g file)
    · simp [hz]
    · simp [hz] at h
      exact absurd ((runError_eq_none _ _ _).1 h) hz

/-- An inspection that leaves the image unknown returns an error of `os.Stat` or of the
`identify` process, and started at most the `identify` process. -/
theorem Info_unknown (g : Globals) (w : World) (tr : List Call) (file : String)
    (h : (Info g w tr file).1.1.IsKnowImage = false) :
    (∃ e, (Info g w tr file).1.2 = some (Error.os e) ∧ (Info g w tr file).2 = tr) ∨
      (∃ e, (Info g w tr file).1.2 = some (Error.exec e) ∧
        (Info g w tr file).2 = tr ++ [identifyCall g file] ∧
        ¬ exitsZero w tr (identifyCall g file)) := by
  rw [Info_eq] at h ⊢
  cases hs : w.Stat file with
  | error e => exact Or.inl ⟨e, rfl, rfl⟩
  | ok size =>
    simp only [hs] at h ⊢
    by_cases hz : exitsZero w tr (identifyCall g file)
    · simp [hz] at h
    · right
      have hne : (w.CombinedOutput tr (identifyCall g file)).err ≠ none :=
        fun hn => hz ((exitsZero_iff_err _ _ _).2 hn)
      obtain ⟨e, he⟩ := Option.ne_none_iff_exists'.1 hne
      exact ⟨e, by simp [hz, runError, he], by simp [hz], hz⟩

/-! ## The stages of `Convert` by cases -/

theorem Convert.pngquant_eq (g : Globals) (w : World) (tr : List Call) (opt : ConvOption)
    (outFormat tempFile fileOut : String) :
    Convert.pngquant g w tr opt outFormat tempFile fileOut =
      if opt.Quality > 0 ∧ outFormat = PNG then
        if exitsZero w tr (pngquantCall g opt tempFile fileOut) then
          (.returned (true, none), tr ++ [pngquantCall g opt tempFile fileOut])
        else
          (.returned (false, runError w tr (pngquantCall g opt tempFile fileOut)),
            tr ++ [pngquantCall g opt tempFile fileOut])
      else (.returned (true, none), tr) := by
  unfold Convert.pngquant
  by_cases hq : opt.Quality > 0 ∧ outFormat = PNG
  · have hmin : (if opt.PngQunlityMin > opt.Quality then
          ({ opt with PngQunlityMin := opt.Quality } : ConvOption) else opt).PngQunlityMin =
        min opt.PngQunlityMin opt.Quality := by
      by_cases hgt : opt.PngQunlityMin > opt.Quality
      · simp [hgt, Nat.min_eq_right (Nat.le_of_lt hgt)]
      · simp [hgt, Nat.min_eq_left (Nat.le_of_not_gt hgt)]
    have hq2 : (if opt.PngQunlityMin > opt.Quality then
          ({ opt with PngQunlityMin := opt.Quality } : ConvOption) else opt).Quality =
        opt.Quality := by
      by_cases hgt : opt.PngQunlityMin > opt.Quality <;> simp [hgt]
    simp only [hq, and_self, if_true, hmin, hq2, run_eq, pngquantCall]
    split <;> simp
  · simp only [hq, if_false]

theorem Convert.imageMagick_eq (g : Globals) (w : World) (tr : List Call) (opt : ConvOption)
    (outFormat tempFile fileOut : String) (args : List String) :
    Convert.imageMagick g w tr opt outFormat tempFile fileOut args =
      if args.length > 0 then
        if exitsZero w tr ⟨Tool.convert, g.imageMagickConvertPath, args⟩ then
          Convert.pngquant g w (tr ++ [⟨Tool.convert, g.imageMagickConvertPath, args⟩]) opt
            outFormat fileOut fileOut
        else
          (.returned (false, runError w tr ⟨Tool.convert, g.imageMagickConvertPath, args⟩),
            tr ++ [⟨Tool.convert, g.imageMagickConvertPath, args⟩])
      else Convert.pngquant g w tr opt outFormat tempFile fileOut := by
  unfold Convert.imageMagick
  by_cases ha : args.length > 0
  · simp only [ha, if_true, run_eq]
    split <;> simp
  · simp only [ha, if_false]

/-! ## `Convert` by cases on the inspection -/

theorem Convert_of_Info_error (g : Globals) (w : World) (fileIn fileOut : String)
    (opt : ConvOption) (e : Error) (h : (Info g w [] fileIn).1.2 = some e) :
    Convert g w fileIn fileOut opt = (.returned (false, some e), (Info g w [] fileIn).2) := by
  unfold Convert
  rcases hi : Info g w [] fileIn with ⟨⟨info, err⟩, tr⟩
  rw [hi] at h
  simp only at h
  subst h
  rfl

theorem Convert_of_Info_ok (g : Globals) (w : World) (fileIn fileOut : String)
    (opt : ConvOption) (h : (Info g w [] fileIn).1.2 = none) :
    Convert g w fileIn fileOut opt =
      match Convert.resize (Info g w [] fileIn).1.1 opt [] with
      | .panicked msg => (.panicked msg, [identifyCall g fileIn])
      | .returned args =>
        Convert.imageMagick g w [identifyCall g fileIn] opt (Convert.outFormat fileOut)
          fileIn fileOut
          (Convert.paths fileIn fileOut (Convert.quality opt (Convert.outFormat fileOut) args)) := by
  obtain ⟨hk, htr, -⟩ := Info_ok g w [] fileIn h
  unfold Convert
  rcases hi : Info g w [] fileIn with ⟨⟨info, err⟩, tr⟩
  rw [hi] at h hk htr
  simp only at h hk htr
  subst h
  simp only [List.nil_append] at htr
  subst htr
  simp only [hk]
  cases Convert.resize info opt [] <;> simp

/-- The arguments `Convert` has collected when it reaches the ImageMagick stage. -/
theorem Convert.resize_nil (info : ImageInfo) (opt : ConvOption) :
    Convert.resize info opt [] =
      if opt.Width > 0 ∨ opt.Heigth > 0 then
        match Convert.resolution info opt with
        | .returned (w, h) => .returned ["-resize", sprintfResize w h]
        | .panicked msg => .panicked msg
      else .returned [] := by
  unfold Convert.resize
  split
  · cases Convert.resolution info opt <;> simp
  · rfl

theorem Convert.quality_eq (opt : ConvOption) (outFormat : String) (args : List String) :
    Convert.quality opt outFormat args =
      args ++ (if opt.Quality > 0 ∧ outFormat ≠ PNG then
        ["-quality", strconv.Itoa (int opt.Quality)] else []) := by
  unfold Convert.quality
  split <;> simp

theorem Convert.paths_eq (tempFile fileOut : String) (args : List String) :
    Convert.paths tempFile fileOut args =
      if args ≠ [] ∨ path.Ext tempFile ≠ path.Ext fileOut then args ++ [tempFile, fileOut]
      else [] := by
  unfold Convert.paths
  cases args with
  | nil => simp
  | cons a as => simp

theorem Info_calls (g : Globals) (w : World) (file : String) (c : Call)
    (hc : c ∈ (Info g w [] file).2) : c = identifyCall g file := by
  rw [Info_eq] at hc
  cases hs : w.Stat file with
  | error e => simp [hs] at hc
  | ok size =>
    simp only [hs] at hc
    split at hc <;> simpa using hc

/-- Every process started by `Convert` is the `identify` call of the inspection, the
ImageMagick call of stage one, or one of the two possible `pngquant` calls. -/
theorem Convert_calls (g : Globals) (w : World) (fileIn fileOut : String) (opt : ConvOption)
    (c : Call) (hc : c ∈ (Convert g w fileIn fileOut opt).2) :
    c = identifyCall g fileIn ∨
      (∃ args, c = ⟨Tool.convert, g.imageMagickConvertPath, args⟩) ∨
      c = pngquantCall g opt fileIn fileOut ∨ c = pngquantCall g opt fileOut fileOut := by
  cases hi : (Info g w [] fileIn).1.2 with
  | some e =>
    rw [Convert_of_Info_error g w fileIn fileOut opt e hi] at hc
    exact Or.inl (Info_calls g w fileIn c hc)
  | none =>
    rw [Convert_of_Info_ok g w fileIn fileOut opt hi] at hc
    cases hr : Convert.resize (Info g w [] fileIn).1.1 opt [] with
    | panicked msg =>
      rw [hr] at hc
      left
      simpa using hc
    | returned args =>
      rw [hr] at hc
      simp only [Convert.imageMagick_eq, Convert.pngquant_eq] at hc
      split_ifs at hc <;> simp at hc <;> aesop

/-- Once the inspection has succeeded and a resolution `(fw, fh)` has been computed for a
resize request, `Convert` starts ImageMagick right after `identify`, with the forced
resize instruction first. -/
theorem Convert_resize_call (g : Globals) (w : World) (fileIn fileOut : String)
    (opt : ConvOption) (fw fh : Nat) (h : (Info g w [] fileIn).1.2 = none)
    (hreq : opt.Width > 0 ∨ opt.Heigth > 0)
    (hres : Convert.resolution (Info g w [] fileIn).1.1 opt = .returned (fw, fh)) :
    ∃ rest, (Convert g w fileIn fileOut opt).2 =
      identifyCall g fileIn ::
        ⟨Tool.convert, g.imageMagickConvertPath,
          "-resize" :: sprintfResize fw fh ::
            ((if opt.Quality > 0 ∧ Convert.outFormat fileOut ≠ PNG then
              ["-quality", strconv.Itoa (int opt.Quality)] else []) ++ [fileIn, fileOut])⟩ ::
        rest := by
  rw [Convert_of_Info_ok g w fileIn fileOut opt h, Convert.resize_nil, if_pos hreq, hres]
  simp only [Convert.imageMagick_eq, Convert.pngquant_eq, Convert.paths_eq, Convert.quality_eq]
  split_ifs <;> simp_all

/-- The whole of `Convert` after a successful inspection and a resize step that returned
the arguments `a`. -/
theorem Convert_eq_of_args (g : Globals) (w : World) (fileIn fileOut : String)
    (opt : ConvOption) (a : List String) (h : (Info g w [] fileIn).1.2 = none)
    (hres : Convert.resize (Info g w [] fileIn).1.1 opt [] = .returned a) :
    Convert g w fileIn fileOut opt =
      if a ≠ [] ∨ (opt.Quality > 0 ∧ Convert.outFormat fileOut ≠ PNG) ∨
          path.Ext fileIn ≠ path.Ext fileOut then
        if exitsZero w [identifyCall g fileIn] (stageOneCall g opt fileIn fileOut a) then
          Convert.pngquant g w [identifyCall g fileIn, stageOneCall g opt fileIn fileOut a] opt
            (Convert.outFormat fileOut) fileOut fileOut
        else
          (.returned (false,
              runError w [identifyCall g fileIn] (stageOneCall g opt fileIn fileOut a)),
            [identifyCall g fileIn, stageOneCall g opt fileIn fileOut a])
      else
        Convert.pngquant g w [identifyCall g fileIn] opt (Convert.outFormat fileOut)
          fileIn fileOut := by
  rw [Convert_of_Info_ok g w fileIn fileOut opt h, hres]
  simp only [Convert.imageMagick_eq, Convert.paths_eq, Convert.quality_eq, stageOneCall]
  by_cases hq : opt.Quality > 0 ∧ Convert.outFormat fileOut ≠ PNG
  · simp [hq]
  · by_cases ha : a = []
    · by_cases he : path.Ext fileIn = path.Ext fileOut <;> simp [hq, ha, he]
    · simp [hq, ha]

/-- The resize step returns no argument exactly when no dimension is requested. -/
theorem Convert.resize_eq_nil_iff (info : ImageInfo) (opt : ConvOption) (a : List String)
    (hres : Convert.resize info opt [] = .returned a) :
    a ≠ [] ↔ (opt.Width > 0 ∨ opt.Heigth > 0) := by
  rw [Convert.resize_nil] at hres
  by_cases hreq : opt.Width > 0 ∨ opt.Heigth > 0
  · rw [if_pos hreq] at hres
    cases hr : Convert.resolution info opt with
    | panicked msg => simp [hr] at hres
    | returned p =>
      simp only [hr, Outcome.returned.injEq] at hres
      simp [← hres, hreq]
  · rw [if_neg hreq] at hres
    simp only [Outcome.returned.injEq] at hres
    simp [← hres, hreq]

/-- Stage-one gate, outside the panic of the resize step: after a successful inspection
ImageMagick is started exactly when a dimension is requested, or a quality is requested
for a non-PNG output, or the two extensions differ. -/
theorem Convert_stage_one_iff (g : Globals) (w : World) (fileIn fileOut : String)
    (opt : ConvOption) (a : List String) (h : (Info g w [] fileIn).1.2 = none)
    (hres : Convert.resize (Info g w [] fileIn).1.1 opt [] = .returned a) :
    (∃ c ∈ (Convert g w fileIn fileOut opt).2, c.tool = Tool.convert) ↔
      ((opt.Width > 0 ∨ opt.Heigth > 0 ∨
          (opt.Quality > 0 ∧ Convert.outFormat fileOut ≠ PNG)) ∨
        path.Ext fileIn ≠ path.Ext fileOut) := by
  have hnil := Convert.resize_eq_nil_iff _ opt a hres
  rw [Convert_eq_of_args g w fileIn fileOut opt a h hres]
  simp only [Convert.pngquant_eq]
  have hgate : (a ≠ [] ∨ (opt.Quality > 0 ∧ Convert.outFormat fileOut ≠ PNG) ∨
        path.Ext fileIn ≠ path.Ext fileOut) ↔
      ((opt.Width > 0 ∨ opt.Heigth > 0 ∨
          (opt.Quality > 0 ∧ Convert.outFormat fileOut ≠ PNG)) ∨
        path.Ext fileIn ≠ path.Ext fileOut) := by
    rw [hnil]
    tauto
  rw [← hgate]
  split_ifs <;> simp_all [identifyCall, stageOneCall, pngquantCall]

/-- With no dimension and no quality requested and equal extensions, no stage runs and
`Convert` returns `(true, nil)` right after the inspection. -/
theorem Convert_noop (g : Globals) (w : World) (fileIn fileOut : String) (opt : ConvOption)
    (h : (Info g w [] fileIn).1.2 = none) (hw : opt.Width = 0) (hh : opt.Heigth = 0)
    (hq : opt.Quality = 0) (hext : path.Ext fileIn = path.Ext fileOut) :
    Convert g w fileIn fileOut opt = (.returned (true, none), [identifyCall g fileIn]) := by
  have hres : Convert.resize (Info g w [] fileIn).1.1 opt [] = .returned [] := by
    simp [Convert.resize, hw, hh]
  rw [Convert_eq_of_args g w fileIn fileOut opt [] h hres]
  simp [Convert.pngquant_eq, hq, hext]

/-- PNG gate, outside the panic of the resize step: after a successful inspection and a
stage one that, if run, exited with status zero, `pngquant` is started exactly when a
quality is requested and the output format is PNG; it reads the output file when stage
one ran and the input file otherwise. -/
theorem Convert_pngquant_iff (g : Globals) (w : World) (fileIn fileOut : String)
    (opt : ConvOption) (a : List String) (h : (Info g w [] fileIn).1.2 = none)
    (hres : Convert.resize (Info g w [] fileIn).1.1 opt [] = .returned a)
    (hone : ∀ c ∈ (Convert g w fileIn fileOut opt).2, c.tool = Tool.convert →
      exitsZero w [identifyCall g fileIn] c) :
    ((∃ c ∈ (Convert g w fileIn fileOut opt).2, c.tool = Tool.pngquant) ↔
        (opt.Quality > 0 ∧ Convert.outFormat fileOut = PNG)) ∧
      ∀ c ∈ (Convert g w fileIn fileOut opt).2, c.tool = Tool.pngquant →
        c.name = g.pngquantPath ∧
        c.arg = ["--force", "--quiet", "--ordered", "--speed=1",
          sprintfQuality (min opt.PngQunlityMin opt.Quality) opt.Quality,
          (if ∃ c1 ∈ (Convert g w fileIn fileOut opt).2, c1.tool = Tool.convert then fileOut
            else fileIn),
          "--output", fileOut] := by
  rw [Convert_eq_of_args g w fileIn fileOut opt a h hres] at hone ⊢
  simp only [Convert.pngquant_eq] at hone ⊢
  split_ifs at hone ⊢ <;> simp_all [identifyCall, stageOneCall, pngquantCall]

/-- The function `Init` by cases on the three probes. -/
theorem Init_eq (g : Globals) (w : World) (conf : Config) :
    Init g w conf =
      if exitsZero w [] (Init.identifyProbe g conf) then
        if exitsZero w [Init.identifyProbe g conf] (Init.convertProbe g conf) then
          if exitsZero w [Init.identifyProbe g conf, Init.convertProbe g conf]
              (Init.pngquantProbe g conf) then
            (none,
              { Init.paths g conf with showDebug := conf.ShowDebug, showError := conf.ShowError },
              [Init.identifyProbe g conf, Init.convertProbe g conf, Init.pngquantProbe g conf])
          else
            (runError w [Init.identifyProbe g conf, Init.convertProbe g conf]
                (Init.pngquantProbe g conf),
              Init.paths g conf,
              [Init.identifyProbe g conf, Init.convertProbe g conf, Init.pngquantProbe g conf])
        else
          (runError w [Init.identifyProbe g conf] (Init.convertProbe g conf), Init.paths g conf,
            [Init.identifyProbe g conf, Init.convertProbe g conf])
      else
        (runError w [] (Init.identifyProbe g conf), Init.paths g conf,
          [Init.identifyProbe g conf]) := by
  unfold Init
  simp only [run_eq, Init.identifyProbe, Init.convertProbe, Init.pngquantProbe]
  split_ifs <;> simp_all

/-- The only process `Convert` starts through `imageMagickConvertPath` is the stage-one
call, after a successful inspection and a resize step that returned. -/
theorem Convert_convert_call (g : Globals) (w : World) (fileIn fileOut : String)
    (opt : ConvOption) (c : Call) (hc : c ∈ (Convert g w fileIn fileOut opt).2)
    (ht : c.tool = Tool.convert) :
    (Info g w [] fileIn).1.2 = none ∧
      ∃ a, Convert.resize (Info g w [] fileIn).1.1 opt [] = .returned a ∧
        c = stageOneCall g opt fileIn fileOut a := by
  cases h : (Info g w [] fileIn).1.2 with
  | some e =>
    rw [Convert_of_Info_error g w fileIn fileOut opt e h] at hc
    rw [Info_calls g w fileIn c hc] at ht
    cases ht
  | none =>
    refine ⟨rfl, ?_⟩
    cases hres : Convert.resize (Info g w [] fileIn).1.1 opt [] with
    | panicked msg =>
      rw [Convert_of_Info_ok g w fileIn fileOut opt h, hres] at hc
      simp only [List.mem_singleton] at hc
      rw [hc] at ht
      cases ht
    | returned a =>
      refine ⟨a, rfl, ?_⟩
      rw [Convert_eq_of_args g w fileIn fileOut opt a h hres] at hc
      simp only [Convert.pngquant_eq] at hc
      have hcases : c = identifyCall g fileIn ∨ c = stageOneCall g opt fileIn fileOut a ∨
          c = pngquantCall g opt fileIn fileOut ∨ c = pngquantCall g opt fileOut fileOut := by
        split_ifs at hc <;> simp at hc <;> tauto
      rcases hcases with hc1 | hc1 | hc1 | hc1
      · rw [hc1] at ht
        cases ht
      · exact hc1
      · rw [hc1] at ht
        cases ht
      · rw [hc1] at ht
        cases ht

/-- For a quality below `2 ^ 63` the text made by `strconv.Itoa(int(q))` is the decimal
numeral of `q`. -/
theorem Itoa_int (q : Nat) (hq : q < 2 ^ 63) : strconv.Itoa (int q) = toString q := by
  have h64 : q % 2 ^ 64 = q := Nat.mod_eq_of_lt (by omega)
  simp only [strconv.Itoa, int, uintBits, h64]
  rw [if_pos (by simpa using hq)]
  rfl

/-- For a quality from `2 ^ 63` up to the largest `uint`, `int(q)` is negative and the text
made by `strconv.Itoa(int(q))` is a minus sign followed by the numeral of `2 ^ 64 - q`. -/
theorem Itoa_int_neg (q : Nat) (hlo : 2 ^ 63 ≤ q) (hhi : q < 2 ^ 64) :
    strconv.Itoa (int q) = "-" ++ toString (2 ^ 64 - q) := by
  have h64 : q % 2 ^ 64 = q := Nat.mod_eq_of_lt hhi
  have hneg : int q = Int.negSucc (2 ^ 64 - q - 1) := by
    simp only [int, uintBits, h64]
    rw [if_neg (by simpa using hlo)]
    rw [Int.negSucc_eq]
    have : ((2 ^ 64 - q - 1 : Nat) : Int) = (2 : Int) ^ 64 - (q : Int) - 1 := by
      omega
    rw [this]
    ring
  have hsucc : 2 ^ 64 - q - 1 + 1 = 2 ^ 64 - q := by omega
  rw [strconv.Itoa, hneg]
  show "-" ++ Nat.repr (Nat.succ (2 ^ 64 - q - 1)) = "-" ++ toString (2 ^ 64 - q)
  rw [Nat.succ_eq_add_one, hsucc]
  rfl

/-! ## The claims -/

/-- C1 (the code diverges): when exactly one target dimension is given and the source
dimension used as divisor is zero, `Convert` does not return an error; the division on
line 170 or 173 panics right after the inspection. -/
theorem Convert_zero_divisor_panics (g : Globals) (w : World) (fileIn fileOut : String)
    (opt : ConvOption) (h : (Info g w [] fileIn).1.2 = none)
    (hz : (opt.Width = 0 ∧ opt.Heigth > 0 ∧ (Info g w [] fileIn).1.1.Height = 0) ∨
      (opt.Heigth = 0 ∧ opt.Width > 0 ∧ (Info g w [] fileIn).1.1.Width = 0)) :
    Convert g w fileIn fileOut opt =
      (.panicked "runtime error: integer divide by zero", [identifyCall g fileIn]) := by
  rw [Convert_of_Info_ok g w fileIn fileOut opt h, Convert.resize_nil]
  rcases hz with ⟨hw, hh, h0⟩ | ⟨hh, hw, h0⟩
  · have hres : Convert.resolution (Info g w [] fileIn).1.1 opt =
        .panicked "runtime error: integer divide by zero" := by
      simp [Convert.resolution, hw, h0]
    rw [if_pos (Or.inr hh), hres]
  · have hres : Convert.resolution (Info g w [] fileIn).1.1 opt =
        .panicked "runtime error: integer divide by zero" := by
      simp [Convert.resolution, Nat.pos_iff_ne_zero.1 hw, hh, h0]
    rw [if_pos (Or.inl hw), hres]

/-- C1, at a 100x0 source with only the height requested: the inspection succeeds and
`Convert` panics instead of returning `(false, error)`. -/
theorem Convert_zero_divisor_panics_witness :
    (Info {} (sampleWorld 100 0 "JPEG" []) [] "in.jpg").1.2 = none ∧
      Convert {} (sampleWorld 100 0 "JPEG" []) "in.jpg" "out.jpg" { Heigth := 10 } =
        (.panicked "runtime error: integer divide by zero", [identifyCall {} "in.jpg"]) :=
  ⟨by decide,
    Convert_zero_divisor_panics {} (sampleWorld 100 0 "JPEG" []) "in.jpg" "out.jpg"
      { Heigth := 10 } (by decide) (Or.inl (by decide))⟩

/-- A source of width zero and nonzero height with only the height requested: no error
either, ImageMagick is asked to resize to width zero. -/
theorem Convert_zero_width_source_proceeds :
    Convert {} (sampleWorld 0 50 "JPEG" []) "in.jpg" "out.jpg" { Heigth := 10 } =
      (.returned (true, none),
        [identifyCall {} "in.jpg",
          ⟨Tool.convert, "convert", ["-resize", "0x10!", "in.jpg", "out.jpg"]⟩]) := by
  decide

/-- With an `identify` that exits with status one the image is not recognised, and `Convert`
returns the error of that process, not the `UnknowImageFormat` of lines 162-164. -/
theorem Convert_unrecognized_returns_exec_error :
    (Info {} (sampleWorld 100 100 "" [Tool.identify]) [] "in.xyz").1.1.IsKnowImage = false ∧
      (Convert {} (sampleWorld 100 100 "" [Tool.identify]) "in.xyz" "out.jpg" {}).1 ≠
        .returned (false, some (Error.New "UnknowImageFormat")) ∧
      (Convert {} (sampleWorld 100 100 "" [Tool.identify]) "in.xyz" "out.jpg" {}).1 =
        .returned (false, some (Error.exec "exit status 1")) := by
  decide

/-- C2 (the code diverges): lines 162-164 are meant to return `UnknowImageFormat` for an
unrecognised image, but they are never reached. Whenever the inspection leaves the image
unrecognised, the test of line 159 has already returned `false` with the inspection's own
error, which comes from `os.Stat` or from the `identify` process and is not
`UnknowImageFormat`. The processes started are those of the inspection, so neither
ImageMagick `convert` nor `pngquant` is run. -/
theorem Convert_unrecognized (g : Globals) (w : World) (fileIn fileOut : String)
    (opt : ConvOption) (h : (Info g w [] fileIn).1.1.IsKnowImage = false) :
    ∃ e, (Info g w [] fileIn).1.2 = some e ∧
      e ≠ Error.New "UnknowImageFormat" ∧
      Convert g w fileIn fileOut opt = (.returned (false, some e), (Info g w [] fileIn).2) ∧
      ∀ c ∈ (Convert g w fileIn fileOut opt).2, c = identifyCall g fileIn := by
  rcases Info_unknown g w [] fileIn h with ⟨e, he, -⟩ | ⟨e, he, -, -⟩
  · refine ⟨Error.os e, he, by simp, Convert_of_Info_error g w fileIn fileOut opt _ he, ?_⟩
    intro c hc
    rw [Convert_of_Info_error g w fileIn fileOut opt _ he] at hc
    exact Info_calls g w fileIn c hc
  · refine ⟨Error.exec e, he, by simp, Convert_of_Info_error g w fileIn fileOut opt _ he, ?_⟩
    intro c hc
    rw [Convert_of_Info_error g w fileIn fileOut opt _ he] at hc
    exact Info_calls g w fileIn c hc

/-- C2, at an input that `identify` rejects. -/
theorem Convert_unrecognized_witness :
    (Info {} (sampleWorld 100 100 "" [Tool.identify]) [] "in.xyz").1.1.IsKnowImage = false ∧
      ∃ e, (Info {} (sampleWorld 100 100 "" [Tool.identify]) [] "in.xyz").1.2 = some e ∧
        e ≠ Error.New "UnknowImageFormat" ∧
        Convert {} (sampleWorld 100 100 "" [Tool.identify]) "in.xyz" "out.png"
            { Width := 10, Quality := 80 } =
          (.returned (false, some e),
            (Info {} (sampleWorld 100 100 "" [Tool.identify]) [] "in.xyz").2) ∧
        ∀ c ∈ (Convert {} (sampleWorld 100 100 "" [Tool.identify]) "in.xyz" "out.png"
            { Width := 10, Quality := 80 }).2, c = identifyCall {} "in.xyz" :=
  ⟨by decide,
    Convert_unrecognized {} (sampleWorld 100 100 "" [Tool.identify]) "in.xyz" "out.png"
      { Width := 10, Quality := 80 } (by decide)⟩

/-- C3 as stated fails: for a 4294967296x1 source and requested height 4294967296 the
product wraps around to zero, so the planned width is 0 and not the floor of the exact
quotient; ImageMagick is asked for `0x4294967296!`. -/
theorem Convert_resolution_overflow_counterexample :
    Convert.resolution { Width := 4294967296, Height := 1 } { Heigth := 4294967296 } ≠
        .returned (4294967296 * 4294967296 / 1, 4294967296) ∧
      Convert {} (sampleWorld 4294967296 1 "JPEG" []) "in.jpg" "out.jpg"
          { Heigth := 4294967296 } =
        (.returned (true, none),
          [identifyCall {} "in.jpg",
            ⟨Tool.convert, "convert", ["-resize", "0x4294967296!", "in.jpg", "out.jpg"]⟩]) := by
  decide

/-- C3 (amended): for a source with nonzero dimensions and a request with exactly one
dimension, the given dimension is kept and the other one is the truncated quotient of the
`uint` product, that is of the product reduced modulo `2 ^ 64`; it is the floor of the
exact quotient whenever the exact product is below `2 ^ 64`. ImageMagick is started with
that resolution as its forced resize instruction. -/
theorem Convert_resolution_one_dimension (g : Globals) (w : World) (fileIn fileOut : String)
    (opt : ConvOption) (h : (Info g w [] fileIn).1.2 = none)
    (hW : (Info g w [] fileIn).1.1.Width ≠ 0) (hH : (Info g w [] fileIn).1.1.Height ≠ 0)
    (hone : (opt.Width = 0 ∧ opt.Heigth > 0) ∨ (opt.Heigth = 0 ∧ opt.Width > 0)) :
    ∃ fw fh, Convert.resolution (Info g w [] fileIn).1.1 opt = .returned (fw, fh) ∧
      (opt.Width = 0 → fh = opt.Heigth ∧
        fw = (Info g w [] fileIn).1.1.Width * opt.Heigth % 2 ^ 64 /
          (Info g w [] fileIn).1.1.Height ∧
        ((Info g w [] fileIn).1.1.Width * opt.Heigth < 2 ^ 64 →
          fw = (Info g w [] fileIn).1.1.Width * opt.Heigth / (Info g w [] fileIn).1.1.Height)) ∧
      (opt.Heigth = 0 → fw = opt.Width ∧
        fh = (Info g w [] fileIn).1.1.Height * opt.Width % 2 ^ 64 /
          (Info g w [] fileIn).1.1.Width ∧
        ((Info g w [] fileIn).1.1.Height * opt.Width < 2 ^ 64 →
          fh = (Info g w [] fileIn).1.1.Height * opt.Width / (Info g w [] fileIn).1.1.Width)) ∧
      ∃ tail rest, (Convert g w fileIn fileOut opt).2 =
        identifyCall g fileIn ::
          ⟨Tool.convert, g.imageMagickConvertPath, "-resize" :: sprintfResize fw fh :: tail⟩ ::
          rest := by
  have hreq : opt.Width > 0 ∨ opt.Heigth > 0 := by
    rcases hone with ⟨-, hh⟩ | ⟨-, hw⟩
    · exact Or.inr hh
    · exact Or.inl hw
  rcases hone with ⟨hw0, hh⟩ | ⟨hh0, hw⟩
  · have hres : Convert.resolution (Info g w [] fileIn).1.1 opt =
        .returned ((Info g w [] fileIn).1.1.Width * opt.Heigth % 2 ^ 64 /
          (Info g w [] fileIn).1.1.Height, opt.Heigth) := by
      simp [Convert.resolution, hw0, hH, uintMul, uintBits]
    refine ⟨_, _, hres, fun _ => ⟨rfl, rfl, fun hlt => by rw [Nat.mod_eq_of_lt hlt]⟩,
      fun hh0 => absurd hh0 (Nat.pos_iff_ne_zero.1 hh), ?_⟩
    obtain ⟨rest, hrest⟩ := Convert_resize_call g w fileIn fileOut opt _ _ h hreq hres
    exact ⟨_, rest, hrest⟩
  · have hres : Convert.resolution (Info g w [] fileIn).1.1 opt =
        .returned (opt.Width, (Info g w [] fileIn).1.1.Height * opt.Width % 2 ^ 64 /
          (Info g w [] fileIn).1.1.Width) := by
      simp [Convert.resolution, Nat.pos_iff_ne_zero.1 hw, hh0, hW, uintMul, uintBits]
    refine ⟨_, _, hres, fun hw0 => absurd hw0 (Nat.pos_iff_ne_zero.1 hw),
      fun _ => ⟨rfl, rfl, fun hlt => by rw [Nat.mod_eq_of_lt hlt]⟩, ?_⟩
    obtain ⟨rest, hrest⟩ := Convert_resize_call g w fileIn fileOut opt _ _ h hreq hres
    exact ⟨_, rest, hrest⟩

/-- C3 (amended), at a 3000x2000 source with only the width 1500 requested. -/
theorem Convert_resolution_one_dimension_witness :
    ∃ fw fh, Convert.resolution (Info {} (sampleWorld 3000 2000 "JPEG" []) [] "in.jpg").1.1
        { Width := 1500 } = .returned (fw, fh) ∧ fw = 1500 ∧ fh = 1000 := by
  obtain ⟨fw, fh, hres, -, h2, -⟩ :=
    Convert_resolution_one_dimension {} (sampleWorld 3000 2000 "JPEG" []) "in.jpg" "out.jpg"
      { Width := 1500 } (by decide) (by decide) (by decide) (Or.inr (by decide))
  obtain ⟨hfw, hfh, -⟩ := h2 rfl
  refine ⟨fw, fh, hres, hfw, ?_⟩
  rw [hfh]
  decide

/-- C4: when both target dimensions are given, the planned resolution is exactly
`(Width, Heigth)` whatever the source dimensions, and ImageMagick is started with the
forced resize instruction `<Width>x<Heigth>!`. -/
theorem Convert_forced_resolution (g : Globals) (w : World) (fileIn fileOut : String)
    (opt : ConvOption) (h : (Info g w [] fileIn).1.2 = none)
    (hw : opt.Width > 0) (hh : opt.Heigth > 0) :
    Convert.resolution (Info g w [] fileIn).1.1 opt = .returned (opt.Width, opt.Heigth) ∧
      ∃ tail rest, (Convert g w fileIn fileOut opt).2 =
        identifyCall g fileIn ::
          ⟨Tool.convert, g.imageMagickConvertPath,
            "-resize" :: (toString opt.Width ++ "x" ++ toString opt.Heigth ++ "!") :: tail⟩ ::
          rest := by
  have hres : Convert.resolution (Info g w [] fileIn).1.1 opt =
      .returned (opt.Width, opt.Heigth) := by
    simp [Convert.resolution, Nat.pos_iff_ne_zero.1 hw, Nat.pos_iff_ne_zero.1 hh]
  obtain ⟨rest, hrest⟩ :=
    Convert_resize_call g w fileIn fileOut opt _ _ h (Or.inl hw) hres
  exact ⟨hres, _, rest, hrest⟩

/-- C4, at a source whose dimensions are both zero. -/
theorem Convert_forced_resolution_witness :
    (Info {} (sampleWorld 0 0 "JPEG" []) [] "in.jpg").1.2 = none ∧
      Convert.resolution (Info {} (sampleWorld 0 0 "JPEG" []) [] "in.jpg").1.1
          { Width := 640, Heigth := 480 } = .returned (640, 480) ∧
      ∃ tail rest,
        (Convert {} (sampleWorld 0 0 "JPEG" []) "in.jpg" "out.jpg"
            { Width := 640, Heigth := 480 }).2 =
          identifyCall {} "in.jpg" ::
            ⟨Tool.convert, "convert", "-resize" :: "640x480!" :: tail⟩ :: rest :=
  ⟨by decide,
    Convert_forced_resolution {} (sampleWorld 0 0 "JPEG" []) "in.jpg" "out.jpg"
      { Width := 640, Heigth := 480 } (by decide) (by decide) (by decide)⟩

/-- C5: every `pngquant` process started by `Convert` gets the quality range
`--quality=<lo>-<hi>` with `hi = Quality` and `lo = min PngQunlityMin Quality`, hence
`lo ≤ hi`, as its fifth argument. -/
theorem Convert_pngquant_quality_range (g : Globals) (w : World) (fileIn fileOut : String)
    (opt : ConvOption) (c : Call) (hc : c ∈ (Convert g w fileIn fileOut opt).2)
    (ht : c.tool = Tool.pngquant) :
    min opt.PngQunlityMin opt.Quality ≤ opt.Quality ∧
      ∃ src, c.arg =
        ["--force", "--quiet", "--ordered", "--speed=1",
          "--quality=" ++ toString (min opt.PngQunlityMin opt.Quality) ++ "-" ++
            toString opt.Quality,
          src, "--output", fileOut] := by
  refine ⟨Nat.min_le_right _ _, ?_⟩
  rcases Convert_calls g w fileIn fileOut opt c hc with hid | ⟨args, hcv⟩ | hp | hp
  · rw [hid] at ht
    cases ht
  · rw [hcv] at ht
    cases ht
  · exact ⟨fileIn, by rw [hp]; rfl⟩
  · exact ⟨fileOut, by rw [hp]; rfl⟩

/-- C5, on `icon.png` with `Quality` 90 and `PngQunlityMin` 95: `pngquant` is started on
the original input with the range `90-90`. -/
theorem Convert_pngquant_quality_range_witness :
    Convert {} (sampleWorld 512 512 "PNG" []) "icon.png" "icon.png"
        { Quality := 90, PngQunlityMin := 95 } =
      (.returned (true, none),
        [identifyCall {} "icon.png",
          ⟨Tool.pngquant, "pngquant",
            ["--force", "--quiet", "--ordered", "--speed=1", "--quality=90-90", "icon.png",
              "--output", "icon.png"]⟩]) ∧
      min 95 90 ≤ 90 ∧
      ∃ src, ["--force", "--quiet", "--ordered", "--speed=1", "--quality=90-90", "icon.png",
          "--output", "icon.png"] =
        ["--force", "--quiet", "--ordered", "--speed=1",
          "--quality=" ++ toString (min 95 90) ++ "-" ++ toString 90, src, "--output",
          "icon.png"] :=
  ⟨by decide,
    Convert_pngquant_quality_range {} (sampleWorld 512 512 "PNG" []) "icon.png" "icon.png"
      { Quality := 90, PngQunlityMin := 95 }
      ⟨Tool.pngquant, "pngquant",
        ["--force", "--quiet", "--ordered", "--speed=1", "--quality=90-90", "icon.png",
          "--output", "icon.png"]⟩
      (by decide) rfl⟩

/-- C6 (the code diverges, same defect as C1): for a 100x0 source with only the height
requested the inspection succeeds, a dimension is requested and the extensions differ,
yet ImageMagick is never started: `Convert` panics before reaching stage one. -/
theorem Convert_stage_one_missing_on_zero_divisor :
    (Info {} (sampleWorld 100 0 "JPEG" []) [] "in.jpg").1.2 = none ∧
      (({ Heigth := 10 } : ConvOption).Width > 0 ∨ ({ Heigth := 10 } : ConvOption).Heigth > 0) ∧
      path.Ext "in.jpg" ≠ path.Ext "out.png" ∧
      (Convert {} (sampleWorld 100 0 "JPEG" []) "in.jpg" "out.png" { Heigth := 10 }).1 =
        .panicked "runtime error: integer divide by zero" ∧
      ∀ c ∈ (Convert {} (sampleWorld 100 0 "JPEG" []) "in.jpg" "out.png" { Heigth := 10 }).2,
        c.tool ≠ Tool.convert := by
  decide

/-- C7 (the code diverges, same defect as C1): for a 0x100 source with only the width
requested, a quality requested and a PNG output, the inspection succeeds and stage one is
not run, yet `pngquant` is never started: `Convert` panics before reaching the PNG stage. -/
theorem Convert_pngquant_missing_on_zero_divisor :
    (Info {} (sampleWorld 0 100 "PNG" []) [] "in.png").1.2 = none ∧
      ({ Width := 10, Quality := 80 } : ConvOption).Quality > 0 ∧
      Convert.outFormat "out.png" = PNG ∧
      (Convert {} (sampleWorld 0 100 "PNG" []) "in.png" "out.png"
          { Width := 10, Quality := 80 }).1 =
        .panicked "runtime error: integer divide by zero" ∧
      ∀ c ∈ (Convert {} (sampleWorld 0 100 "PNG" []) "in.png" "out.png"
          { Width := 10, Quality := 80 }).2,
        c.tool ≠ Tool.convert ∧ c.tool ≠ Tool.pngquant := by
  decide

/-- C8: `Convert` is fail-fast. If it returns `(true, nil)`, the inspection succeeded and
every process it started exited with status zero. If the ImageMagick process of stage one
does not exit with status zero, `Convert` returns `false` with the error of that process,
which is not nil, that process is the last one started, and `pngquant` is never started. -/
theorem Convert_fail_fast (g : Globals) (w : World) (fileIn fileOut : String)
    (opt : ConvOption) :
    ((Convert g w fileIn fileOut opt).1 = .returned (true, none) →
        (Info g w [] fileIn).1.2 = none ∧ (Info g w [] fileIn).1.1.IsKnowImage = true ∧
        ∀ (i : Nat) (c : Call), (Convert g w fileIn fileOut opt).2.get? i = some c →
          exitsZero w ((Convert g w fileIn fileOut opt).2.take i) c) ∧
      (∀ (i : Nat) (c : Call), (Convert g w fileIn fileOut opt).2.get? i = some c →
        c.tool = Tool.convert →
        ¬ exitsZero w ((Convert g w fileIn fileOut opt).2.take i) c →
        (Convert g w fileIn fileOut opt).1 =
            .returned (false, runError w ((Convert g w fileIn fileOut opt).2.take i) c) ∧
          runError w ((Convert g w fileIn fileOut opt).2.take i) c ≠ none ∧
          (Convert g w fileIn fileOut opt).2.length = i + 1 ∧
          ∀ c1 ∈ (Convert g w fileIn fileOut opt).2, c1.tool ≠ Tool.pngquant) := by
  cases h : (Info g w [] fileIn).1.2 with
  | some e =>
    rw [Convert_of_Info_error g w fileIn fileOut opt e h]
    refine ⟨fun hr => by simp at hr, ?_⟩
    intro i c hget ht
    have := Info_calls g w fileIn c (List.get?_mem hget)
    rw [this] at ht
    cases ht
  | none =>
    obtain ⟨hk, -, hz⟩ := Info_ok g w [] fileIn h
    cases hres : Convert.resize (Info g w [] fileIn).1.1 opt [] with
    | panicked msg =>
      rw [Convert_of_Info_ok g w fileIn fileOut opt h, hres]
      refine ⟨fun hr => by simp at hr, ?_⟩
      intro i c hget ht
      have hc := List.get?_mem hget
      simp only [List.mem_singleton] at hc
      rw [hc] at ht
      cases ht
    | returned a =>
      rw [Convert_eq_of_args g w fileIn fileOut opt a h hres]
      simp only [Convert.pngquant_eq]
      split_ifs with h1 h2 h3 h4 h5 h6
      all_goals refine ⟨fun hr => ?_, fun i c hget ht hnz => ?_⟩
      all_goals first
        | (exfalso; simp at hr; done)
        | (refine ⟨trivial, hk, fun i c hget => ?_⟩
           rcases i with _ | _ | _ | i <;> simp at hget <;> subst hget <;> simpa)
        | skip
      all_goals rcases i with _ | _ | _ | i <;> simp at hget <;> subst hget <;>
        simp_all [identifyCall, stageOneCall, pngquantCall, runError_eq_none]

/-- C9: `Init` probes `identify`, `convert` and `pngquant`, in that order, with
`--version`, at the configured path where the configuration gives a non-empty one and at
the current path otherwise. A probe that fails to launch or does not exit with status zero
makes `Init` return its non-nil error at once, no later probe being started; `Init` returns
nil exactly when all three probes ran and exited with status zero. -/
theorem Init_fail_fast (g : Globals) (w : World) (conf : Config) :
    (Init.identifyProbe g conf =
        ⟨Tool.identify,
          if conf.ImageMagickIdentifyPath ≠ "" then conf.ImageMagickIdentifyPath
          else g.imageMagickIdentifyPath, ["--version"]⟩ ∧
      Init.convertProbe g conf =
        ⟨Tool.convert,
          if conf.ImageMagickConvertPath ≠ "" then conf.ImageMagickConvertPath
          else g.imageMagickConvertPath, ["--version"]⟩ ∧
      Init.pngquantProbe g conf =
        ⟨Tool.pngquant,
          if conf.PngquantPath ≠ "" then conf.PngquantPath else g.pngquantPath,
          ["--version"]⟩) ∧
    (¬ exitsZero w [] (Init.identifyProbe g conf) →
      (Init g w conf).1 = runError w [] (Init.identifyProbe g conf) ∧
      (Init g w conf).1 ≠ none ∧
      (Init g w conf).2.2 = [Init.identifyProbe g conf]) ∧
    (exitsZero w [] (Init.identifyProbe g conf) →
      ¬ exitsZero w [Init.identifyProbe g conf] (Init.convertProbe g conf) →
      (Init g w conf).1 = runError w [Init.identifyProbe g conf] (Init.convertProbe g conf) ∧
      (Init g w conf).1 ≠ none ∧
      (Init g w conf).2.2 = [Init.identifyProbe g conf, Init.convertProbe g conf]) ∧
    (exitsZero w [] (Init.identifyProbe g conf) →
      exitsZero w [Init.identifyProbe g conf] (Init.convertProbe g conf) →
      ¬ exitsZero w [Init.identifyProbe g conf, Init.convertProbe g conf]
        (Init.pngquantProbe g conf) →
      (Init g w conf).1 =
        runError w [Init.identifyProbe g conf, Init.convertProbe g conf]
          (Init.pngquantProbe g conf) ∧
      (Init g w conf).1 ≠ none ∧
      (Init g w conf).2.2 =
        [Init.identifyProbe g conf, Init.convertProbe g conf, Init.pngquantProbe g conf]) ∧
    ((Init g w conf).1 = none ↔
      exitsZero w [] (Init.identifyProbe g conf) ∧
      exitsZero w [Init.identifyProbe g conf] (Init.convertProbe g conf) ∧
      exitsZero w [Init.identifyProbe g conf, Init.convertProbe g conf]
        (Init.pngquantProbe g conf)) ∧
    ((Init g w conf).1 = none →
      (Init g w conf).2.2 =
        [Init.identifyProbe g conf, Init.convertProbe g conf, Init.pngquantProbe g conf]) := by
  refine ⟨⟨?_, ?_, ?_⟩, ?_, ?_, ?_, ?_, ?_⟩
  · simp only [Init.identifyProbe, Init.paths]
    split_ifs <;> simp_all
  · simp only [Init.convertProbe, Init.paths]
    split_ifs <;> simp_all
  · simp only [Init.pngquantProbe, Init.paths]
    split_ifs <;> simp_all
  · intro h1
    rw [Init_eq, if_neg h1]
    exact ⟨rfl, runError_ne_none _ _ _ h1, rfl⟩
  · intro h1 h2
    rw [Init_eq, if_pos h1, if_neg h2]
    exact ⟨rfl, runError_ne_none _ _ _ h2, rfl⟩
  · intro h1 h2 h3
    rw [Init_eq, if_pos h1, if_pos h2, if_neg h3]
    exact ⟨rfl, runError_ne_none _ _ _ h3, rfl⟩
  · rw [Init_eq]
    split_ifs with h1 h2 h3
    · simp [h1, h2, h3]
    · simp [h1, h2, h3, runError_eq_none]
    · simp [h1, h2, runError_eq_none]
    · simp [h1, runError_eq_none]
  · rw [Init_eq]
    split_ifs with h1 h2 h3
    · simp
    · simp [h3, runError_eq_none]
    · simp [h2, runError_eq_none]
    · simp [h1, runError_eq_none]

/-- C9, with a `convert` that exits with status one and a configured `pngquant` path: the
error is returned after the second probe and `pngquant` is not probed. -/
theorem Init_fail_fast_witness :
    Init {} (sampleWorld 0 0 "" [Tool.convert]) { PngquantPath := "/opt/bin/pngquant" } =
      (some (Error.exec "exit status 1"),
        { pngquantPath := "/opt/bin/pngquant" },
        [⟨Tool.identify, "identify", ["--version"]⟩,
          ⟨Tool.convert, "convert", ["--version"]⟩]) ∧
      (Init {} (sampleWorld 0 0 "" [Tool.convert]) { PngquantPath := "/opt/bin/pngquant" }).1 ≠
        none :=
  ⟨by decide,
    ((Init_fail_fast {} (sampleWorld 0 0 "" [Tool.convert])
      { PngquantPath := "/opt/bin/pngquant" }).2.2.1 (by decide) (by decide)).2.1⟩

/-- C8, with a `convert` that exits with status one on a request that would otherwise
reach the PNG stage: `Convert` returns `false` with that error and `pngquant` is not started. -/
theorem Convert_fail_fast_witness :
    Convert {} (sampleWorld 512 512 "PNG" [Tool.convert]) "in.png" "out.png"
        { Width := 256, Quality := 80 } =
      (.returned (false, some (Error.exec "exit status 1")),
        [identifyCall {} "in.png",
          ⟨Tool.convert, "convert", ["-resize", "256x256!", "in.png", "out.png"]⟩]) ∧
      ∀ c1 ∈ (Convert {} (sampleWorld 512 512 "PNG" [Tool.convert]) "in.png" "out.png"
          { Width := 256, Quality := 80 }).2, c1.tool ≠ Tool.pngquant :=
  ⟨by decide,
    ((Convert_fail_fast {} (sampleWorld 512 512 "PNG" [Tool.convert]) "in.png" "out.png"
      { Width := 256, Quality := 80 }).2 1
      ⟨Tool.convert, "convert", ["-resize", "256x256!", "in.png", "out.png"]⟩
      (by decide) rfl (by decide)).2.2.2⟩

/-- C10 as stated fails: with `Quality` 18446744073709551615 the conversion `int(Quality)`
is negative and ImageMagick is started with `-quality -1`, which is not the numeral of
`Quality`. -/
theorem Convert_quality_text_counterexample :
    Convert {} (sampleWorld 512 512 "JPEG" []) "in.jpg" "out.jpg"
        { Quality := 18446744073709551615 } =
      (.returned (true, none),
        [identifyCall {} "in.jpg",
          ⟨Tool.convert, "convert", ["-quality", "-1", "in.jpg", "out.jpg"]⟩]) ∧
      "-1" ≠ toString (18446744073709551615 : Nat) := by
  decide

/-- C10 (amended): the argument list of the ImageMagick process started by `Convert` is, in
this order, the resize pair `-resize <w>x<h>!` exactly when a dimension is requested, the
quality pair `-quality <q>` exactly when a quality is requested and the output format is
not PNG, the input path and the output path. The text `<q>` is `strconv.Itoa(int(Quality))`:
the numeral of `Quality` when `Quality` is below `2 ^ 63`, and a minus sign followed by the
numeral of `2 ^ 64 - Quality` when `Quality` is from `2 ^ 63` up to the largest `uint`. For a
3000x2000 source, `Width` 1500, `Quality` 80 and a non-PNG output the list is
`-resize 1500x1000! -quality 80 fileIn fileOut`, no `pngquant` is started and `Convert`
returns `(true, nil)` when that process exits with status zero. -/
theorem Convert_converter_args (g : Globals) (w : World) (fileIn fileOut : String) :
    (∀ (opt : ConvOption) (c : Call), c ∈ (Convert g w fileIn fileOut opt).2 →
      c.tool = Tool.convert →
      c.name = g.imageMagickConvertPath ∧
      ∃ resizePair qualityPair, c.arg = resizePair ++ qualityPair ++ [fileIn, fileOut] ∧
        (opt.Width > 0 ∨ opt.Heigth > 0 →
          ∃ fw fh, Convert.resolution (Info g w [] fileIn).1.1 opt = .returned (fw, fh) ∧
            resizePair = ["-resize", toString fw ++ "x" ++ toString fh ++ "!"]) ∧
        (¬ (opt.Width > 0 ∨ opt.Heigth > 0) → resizePair = []) ∧
        (opt.Quality > 0 ∧ Convert.outFormat fileOut ≠ PNG →
          qualityPair = ["-quality", strconv.Itoa (int opt.Quality)]) ∧
        (¬ (opt.Quality > 0 ∧ Convert.outFormat fileOut ≠ PNG) → qualityPair = []) ∧
        (opt.Quality < 2 ^ 63 → strconv.Itoa (int opt.Quality) = toString opt.Quality) ∧
        (2 ^ 63 ≤ opt.Quality → opt.Quality < 2 ^ 64 →
          strconv.Itoa (int opt.Quality) = "-" ++ toString (2 ^ 64 - opt.Quality))) ∧
    ((Info g w [] fileIn).1.2 = none →
      (Info g w [] fileIn).1.1.Width = 3000 → (Info g w [] fileIn).1.1.Height = 2000 →
      Convert.outFormat fileOut ≠ PNG →
      exitsZero w [identifyCall g fileIn]
        ⟨Tool.convert, g.imageMagickConvertPath,
          ["-resize", "1500x1000!", "-quality", "80", fileIn, fileOut]⟩ →
      Convert g w fileIn fileOut { Width := 1500, Quality := 80 } =
        (.returned (true, none),
          [identifyCall g fileIn,
            ⟨Tool.convert, g.imageMagickConvertPath,
              ["-resize", "1500x1000!", "-quality", "80", fileIn, fileOut]⟩])) := by
  constructor
  · intro opt c hc ht
    obtain ⟨-, a, hres, hca⟩ := Convert_convert_call g w fileIn fileOut opt c hc ht
    subst hca
    refine ⟨rfl, a,
      (if opt.Quality > 0 ∧ Convert.outFormat fileOut ≠ PNG then
        ["-quality", strconv.Itoa (int opt.Quality)] else []), rfl, ?_, ?_, ?_, ?_, ?_, ?_⟩
    · intro hreq
      rw [Convert.resize_nil, if_pos hreq] at hres
      cases hr : Convert.resolution (Info g w [] fileIn).1.1 opt with
      | panicked msg => simp [hr] at hres
      | returned p =>
        obtain ⟨fw, fh⟩ := p
        simp only [hr, Outcome.returned.injEq] at hres
        exact ⟨fw, fh, rfl, hres.symm⟩
    · intro hreq
      rw [Convert.resize_nil, if_neg hreq] at hres
      simp only [Outcome.returned.injEq] at hres
      exact hres.symm
    · intro hq
      rw [if_pos hq]
    · intro hq
      rw [if_neg hq]
    · exact Itoa_int opt.Quality
    · exact Itoa_int_neg opt.Quality
  · intro h hW hH hfmt hz
    have hres : Convert.resize (Info g w [] fileIn).1.1 { Width := 1500, Quality := 80 } [] =
        .returned ["-resize", "1500x1000!"] := by
      simp only [Convert.resize, Convert.resolution, hW, hH, uintMul, uintBits]
      decide
    have hcall : stageOneCall g { Width := 1500, Quality := 80 } fileIn fileOut
          ["-resize", "1500x1000!"] =
        ⟨Tool.convert, g.imageMagickConvertPath,
          ["-resize", "1500x1000!", "-quality", "80", fileIn, fileOut]⟩ := by
      have h80 : strconv.Itoa (int 80) = "80" := by decide
      simp [stageOneCall, hfmt, h80]
    rw [Convert_eq_of_args g w fileIn fileOut _ _ h hres, hcall]
    simp [Convert.pngquant_eq, hz, hfmt]

/-- C10, on `photo.jpg` (3000x2000) with `Width` 1500 and `Quality` 80. -/
theorem Convert_converter_args_witness :
    Convert {} (sampleWorld 3000 2000 "JPEG" []) "photo.jpg" "out.jpg"
        { Width := 1500, Quality := 80 } =
      (.returned (true, none),
        [identifyCall {} "photo.jpg",
          ⟨Tool.convert, "convert",
            ["-resize", "1500x1000!", "-quality", "80", "photo.jpg", "out.jpg"]⟩]) :=
  (Convert_converter_args {} (sampleWorld 3000 2000 "JPEG" []) "photo.jpg" "out.jpg").2
    (by decide) (by decide) (by decide) (by decide) (by decide)

end GoImageUtil
